import Mathlib

/-!
Shallow embedding of the vibe-loop audio backend (Node/Express + Mongoose and a
parallel Supabase variant) for checking its natural-language specification.

The repository contains two parallel implementations:
* a Mongoose app: `src/unnamed/part_000` (audio controller), `src/models/Audio.js`,
  `src/models/User.js`, `src/routes/audio.js`;
* a Supabase app: `src/controllers/audioController.js` with the storage service
  `src/unnamed/part_003` (`StorageService`).

Every definition below is translated from the source files; JavaScript truthiness
on optional string fields is modelled by `falsy`, the filesystem and the S3 bucket
by association lists from keys to contents, and fallible calls by `Except`.
-/

namespace VibeLoop


/-- Truthiness of an optional string request field: JS `!x` is true when the field
is absent or the empty string. -/
def falsy : Option String → Bool
  | none => true
  | some s => s = ""

/-- JavaScript `toLowerCase()` on the ASCII range, over the character list (the
repository only lower-cases ASCII tag values). -/
def jsToLower (s : String) : String :=
  ⟨s.data.map (fun c => if 'A' ≤ c ∧ c ≤ 'Z' then Char.ofNat (c.toNat + 32) else c)⟩

/-- Whitespace test used by `jsTrim`. -/
def jsIsWs (c : Char) : Bool := c = ' ' ∨ c = '\t' ∨ c = '\n' ∨ c = '\r'

/-- JavaScript `trim()`: strip whitespace from both ends. -/
def jsTrim (s : String) : String :=
  ⟨((s.data.dropWhile jsIsWs).reverse.dropWhile jsIsWs).reverse⟩

/-- JavaScript `startsWith`, over the character lists. -/
def jsStartsWith (s p : String) : Bool := p.data.isPrefixOf s.data

/-- Mood enumeration from `src/models/Audio.js` (15 values). -/
def moodEnum : List String :=
  ["happy", "sad", "energetic", "calm", "romantic",
   "angry", "nostalgic", "chill", "party", "focus",
   "melancholic", "upbeat", "relaxed", "intense", "dreamy"]

/-- Environment enumeration from `src/models/Audio.js` (16 values). -/
def environmentEnum : List String :=
  ["home", "office", "car", "gym", "outdoors", "cafe",
   "rainy day", "sunny day", "night", "morning", "evening",
   "study", "work", "sleep", "commute", "social"]

/-- Genre enumeration from `src/models/Audio.js` (15 values). -/
def genreEnum : List String :=
  ["rock", "pop", "jazz", "classical", "electronic",
   "hip-hop", "country", "blues", "reggae", "folk",
   "ambient", "podcast", "voice-note", "instrumental", "other"]

/-- Allowed MIME types from `src/models/Audio.js`. -/
def mimeTypeEnum : List String :=
  ["audio/mpeg", "audio/mp3", "audio/wav", "audio/ogg",
   "audio/m4a", "audio/aac", "audio/flac", "audio/webm"]

/-- Nested `metadata` subdocument of an audio record (`src/models/Audio.js`). -/
structure AudioMeta where
  artist : Option String := none
  album : Option String := none
  year : Option Int := none
  bpm : Option Int := none
deriving Repr, DecidableEq

/-- Nested `stats` subdocument of an audio record (`src/models/Audio.js`). -/
structure AudioStats where
  playCount : Nat := 0
  likes : Nat := 0
  shares : Nat := 0
  lastPlayed : Option Nat := none
deriving Repr, DecidableEq

/-- An `Audio` document as persisted by the Mongoose model in
`src/models/Audio.js` (the unused `quality` subdocument and virtuals are not
part of the persisted state modelled here). Timestamps are naturals. -/
structure Audio where
  id : String
  title : String
  description : String := ""
  filename : String
  originalName : String
  filePath : String
  fileSize : Nat
  mimeType : String
  duration : Option Nat := none
  mood : String
  environment : String
  genre : Option String := none
  tags : List String := []
  uploadedBy : String
  metadata : AudioMeta := {}
  stats : AudioStats := {}
  isPublic : Bool := false
  isActive : Bool := true
  createdAt : Nat
deriving Repr, DecidableEq

/-- Validation failures raised by `audio.save()` against the schema in
`src/models/Audio.js`; each constructor stands for one mongoose validator
message. -/
inductive VErr where
  | titleRequired
  | titleTooLong
  | descriptionTooLong
  | filenameRequired
  | originalNameRequired
  | filePathRequired
  | mimeTypeInvalid (v : String)
  | moodRequired
  | moodInvalid (v : String)
  | environmentRequired
  | environmentInvalid (v : String)
  | genreInvalid (v : String)
  | tagTooLong (t : String)
  | uploaderRequired
  | bpmOutOfRange (v : Int)
  | yearTooSmall (v : Int)
deriving Repr, DecidableEq

/-- Mongoose validation of an `Audio` document on `save()`, following the
schema validators of `src/models/Audio.js` field by field. The empty list means
the document is valid. (The `year` upper bound depends on the process start
date and is not modelled; `duration`, `fileSize` and the stats are naturals, so
their non-negativity validators cannot fire.) -/
def validateAudio (a : Audio) : List VErr :=
  (if a.title = "" then [VErr.titleRequired] else []) ++
  (if a.title.length > 100 then [VErr.titleTooLong] else []) ++
  (if a.description.length > 500 then [VErr.descriptionTooLong] else []) ++
  (if a.filename = "" then [VErr.filenameRequired] else []) ++
  (if a.originalName = "" then [VErr.originalNameRequired] else []) ++
  (if a.filePath = "" then [VErr.filePathRequired] else []) ++
  (if a.mimeType ∈ mimeTypeEnum then [] else [VErr.mimeTypeInvalid a.mimeType]) ++
  (if a.mood = "" then [VErr.moodRequired]
   else if a.mood ∈ moodEnum then [] else [VErr.moodInvalid a.mood]) ++
  (if a.environment = "" then [VErr.environmentRequired]
   else if a.environment ∈ environmentEnum then [] else [VErr.environmentInvalid a.environment]) ++
  (match a.genre with
   | none => []
   | some g => if g ∈ genreEnum then [] else [VErr.genreInvalid g]) ++
  (a.tags.filterMap (fun t => if t.length > 30 then some (VErr.tagTooLong t) else none)) ++
  (if a.uploadedBy = "" then [VErr.uploaderRequired] else []) ++
  (match a.metadata.bpm with
   | none => []
   | some v => if v < 0 ∨ 300 < v then [VErr.bpmOutOfRange v] else []) ++
  (match a.metadata.year with
   | none => []
   | some v => if v < 1900 then [VErr.yearTooSmall v] else [])

/-- The `fileUrl` virtual of `src/models/Audio.js`: an S3 `filePath` (an http
URL) is returned as is, otherwise a local `/uploads/` route for `filename`. -/
def fileUrl (a : Audio) : Option String :=
  if a.filePath ≠ "" ∧ jsStartsWith a.filePath "http" = true then some a.filePath
  else if a.filename ≠ "" then some ("/uploads/" ++ a.filename)
  else none

/-- The projection returned by `audio.getPublicInfo()` in `src/models/Audio.js`
(the derived `formattedDuration` string is not modelled). -/
structure PublicInfo where
  id : String
  title : String
  description : String
  mood : String
  environment : String
  genre : Option String
  tags : List String
  duration : Option Nat
  fileUrl : Option String
  metadata : AudioMeta
  stats : AudioStats
  createdAt : Nat
  uploadedBy : String
deriving Repr, DecidableEq

/-- Builds `audio.getPublicInfo()`. -/
def getPublicInfo (a : Audio) : PublicInfo :=
  { id := a.id
    title := a.title
    description := a.description
    mood := a.mood
    environment := a.environment
    genre := a.genre
    tags := a.tags
    duration := a.duration
    fileUrl := fileUrl a
    metadata := a.metadata
    stats := a.stats
    createdAt := a.createdAt
    uploadedBy := a.uploadedBy }

/-- An HTTP error response: status code and the `error` message body. -/
structure ErrResp where
  status : Nat
  error : String
deriving Repr, DecidableEq

/-- The 404 body shared by `getAudio`, `updateAudio` and `playAudio` in
`src/unnamed/part_000`. -/
def notFoundResp : ErrResp := { status := 404, error := "Audio file not found." }

/-- The 403 body of the privacy check in `getAudio` and `playAudio`. -/
def accessDeniedResp : ErrResp :=
  { status := 403, error := "Access denied. This audio file is private." }

/-- The 403 body of the ownership check in `updateAudio`. -/
def updateDeniedResp : ErrResp :=
  { status := 403, error := "Access denied. You can only update your own audio files." }

/-- The 403 body of the ownership check in `deleteAudio`. -/
def deleteDeniedResp : ErrResp :=
  { status := 403, error := "Access denied. You can only delete your own audio files." }

/-- Lookup of `Audio.findById(id)` over the modelled collection. -/
def findById (db : List Audio) (id : String) : Option Audio :=
  db.find? (fun a => a.id = id)

/-- The `getAudio` controller of `src/unnamed/part_000` (lines 233-263): 404
when the record is absent or inactive, 403 when it is private and the caller
(`req.userId`, absent for unauthenticated callers) is not the owner, otherwise
the `getPublicInfo` projection. -/
def getAudio (db : List Audio) (id : String) (userId : Option String) :
    Except ErrResp PublicInfo :=
  match findById db id with
  | none => .error notFoundResp
  | some audio =>
    if !audio.isActive then .error notFoundResp
    else if !audio.isPublic ∧ userId ≠ some audio.uploadedBy then .error accessDeniedResp
    else .ok (getPublicInfo audio)

/-- Request body of `updateAudio` in `src/unnamed/part_000`. `none` models a
field absent from `req.body` (JS `undefined`); the controller checks some
fields for truthiness (`if (title)`) and others only for presence
(`if (description !== undefined)`). -/
structure UpdateBody where
  title : Option String := none
  description : Option String := none
  mood : Option String := none
  environment : Option String := none
  genre : Option String := none
  tags : Option (List String) := none
  artist : Option String := none
  album : Option String := none
  year : Option Int := none
  bpm : Option Int := none
  isPublic : Option Bool := none
deriving Repr, DecidableEq

/-- Field updates applied by `updateAudio` (lines 286-307 of
`src/unnamed/part_000`) before `audio.save()`. -/
def applyUpdate (audio : Audio) (b : UpdateBody) : Audio :=
  let audio := if falsy b.title then audio else { audio with title := jsTrim (b.title.getD "") }
  let audio := match b.description with
    | none => audio
    | some d => { audio with description := jsTrim d }
  let audio := if falsy b.mood then audio else { audio with mood := jsToLower (b.mood.getD "") }
  let audio := if falsy b.environment then audio
    else { audio with environment := jsToLower (b.environment.getD "") }
  let audio := if falsy b.genre then audio
    else { audio with genre := some (jsToLower (b.genre.getD "")) }
  let audio := match b.isPublic with
    | none => audio
    | some p => { audio with isPublic := p }
  let audio := match b.tags with
    | none => audio
    | some ts => { audio with tags := ts }
  let audio := match b.artist with
    | none => audio
    | some v => { audio with metadata := { audio.metadata with artist := some (jsTrim v) } }
  let audio := match b.album with
    | none => audio
    | some v => { audio with metadata := { audio.metadata with album := some (jsTrim v) } }
  let audio := match b.year with
    | none => audio
    | some v => { audio with metadata := { audio.metadata with year := some v } }
  let audio := match b.bpm with
    | none => audio
    | some v => { audio with metadata := { audio.metadata with bpm := some v } }
  audio

/-- Replaces the record with the matching id (model of saving a fetched,
mutated mongoose document back to its collection). -/
def replaceById (db : List Audio) (a : Audio) : List Audio :=
  db.map (fun x => if x.id = a.id then a else x)

/-- The `updateAudio` controller of `src/unnamed/part_000` (lines 266-332):
404 when absent or inactive, 403 for non-owners, otherwise the updates are
applied and saved; a failing schema validation yields 400 with the validator
messages and leaves the collection unchanged. Returns the new collection and
the response. -/
def updateAudio (db : List Audio) (id : String) (userId : String) (b : UpdateBody) :
    List Audio × Except ErrResp PublicInfo :=
  match findById db id with
  | none => (db, .error notFoundResp)
  | some audio =>
    if !audio.isActive then (db, .error notFoundResp)
    else if audio.uploadedBy ≠ userId then (db, .error updateDeniedResp)
    else
      let audio1 := applyUpdate audio b
      match validateAudio audio1 with
      | [] => (replaceById db audio1, .ok (getPublicInfo audio1))
      | _ :: _ =>
        (db, .error { status := 400, error := "Validation failed." })

/-- The `playAudio` controller of `src/unnamed/part_000` (lines 405-438):
404 when absent or inactive, 403 when private and not owned by the caller,
otherwise `incrementPlayCount()` bumps the play counter and stamps
`lastPlayed`, and the new count is returned. -/
def playAudio (db : List Audio) (id : String) (userId : Option String) (now : Nat) :
    List Audio × Except ErrResp Nat :=
  match findById db id with
  | none => (db, .error notFoundResp)
  | some audio =>
    if !audio.isActive then (db, .error notFoundResp)
    else if !audio.isPublic ∧ userId ≠ some audio.uploadedBy then (db, .error accessDeniedResp)
    else
      let audio1 := { audio with
        stats := { audio.stats with
          playCount := audio.stats.playCount + 1, lastPlayed := some now } }
      (replaceById db audio1, .ok audio1.stats.playCount)

/-- A file object produced by the multer middleware configured in
`src/routes/audio.js`: `multer-s3` populates `key`/`location`, disk storage
populates `filename`/`path`. The Mongoose upload controller distinguishes the
two by the truthiness of `location`. -/
inductive MulterFile where
  | s3 (key location originalname mimetype : String) (size : Nat)
  | disk (filename path originalname mimetype : String) (size : Nat)
deriving Repr, DecidableEq

/-- Original client-side filename of a multer file. -/
def MulterFile.originalname : MulterFile → String
  | .s3 _ _ o _ _ => o
  | .disk _ _ o _ _ => o

/-- Declared MIME type of a multer file. -/
def MulterFile.mimetype : MulterFile → String
  | .s3 _ _ _ m _ => m
  | .disk _ _ _ m _ => m

/-- Size in bytes of a multer file. -/
def MulterFile.size : MulterFile → Nat
  | .s3 _ _ _ _ s => s
  | .disk _ _ _ _ s => s

/-- World state of the Mongoose app: the audio collection, the local upload
directory (paths of files present on disk), the S3 bucket (keys of stored
objects) and the per-user `stats.totalUploads` counters. -/
structure MState where
  db : List Audio := []
  localFiles : List String := []
  s3Objects : List String := []
  uploads : List (String × Nat) := []
deriving Repr, DecidableEq

/-- Storage write performed by the multer middleware before the controller
runs: `multer-s3` puts the object under its generated key, disk storage writes
the file at its generated path. -/
def multerStore (st : MState) (f : MulterFile) : MState :=
  match f with
  | .s3 key _ _ _ _ => { st with s3Objects := key :: st.s3Objects }
  | .disk _ path _ _ _ => { st with localFiles := path :: st.localFiles }

/-- Increment (or decrement, via `d : Int`) a user's `stats.totalUploads`,
modelling `User.findByIdAndUpdate(userId, inc totalUploads)`. -/
def bumpUploads (users : List (String × Nat)) (userId : String) (d : Int) :
    List (String × Nat) :=
  users.map (fun u => if u.1 = userId then (u.1, (Int.ofNat u.2 + d).toNat) else u)

/-- Request body of the Mongoose `uploadAudio` controller. Tags are modelled
after parsing; `isPublic` after its string comparison. -/
structure MBody where
  title : Option String := none
  description : Option String := none
  mood : Option String := none
  environment : Option String := none
  genre : Option String := none
  tags : List String := []
  artist : Option String := none
  album : Option String := none
  year : Option Int := none
  bpm : Option Int := none
  isPublic : Bool := false
deriving Repr, DecidableEq

/-- The audio document assembled by `uploadAudio` in `src/unnamed/part_000`
(lines 42-75): S3 uploads store the S3 key in `filename` and the object URL in
`filePath`; disk uploads store multer's generated filename and local path.
Mood, environment and genre are lower-cased; title and description trimmed. -/
def mkAudioDoc (f : MulterFile) (b : MBody) (userId newId : String) (now : Nat) : Audio :=
  { id := newId
    title := jsTrim (b.title.getD "")
    description := jsTrim (b.description.getD "")
    filename := match f with | .s3 key _ _ _ _ => key | .disk fn _ _ _ _ => fn
    originalName := f.originalname
    filePath := match f with | .s3 _ loc _ _ _ => loc | .disk _ p _ _ _ => p
    fileSize := f.size
    mimeType := f.mimetype
    mood := jsToLower (b.mood.getD "")
    environment := jsToLower (b.environment.getD "")
    genre := if falsy b.genre then none else some (jsToLower (b.genre.getD ""))
    tags := b.tags
    uploadedBy := userId
    metadata :=
      { artist := b.artist.map jsTrim
        album := b.album.map jsTrim
        year := b.year
        bpm := b.bpm }
    isPublic := b.isPublic
    createdAt := now }

/-- Responses of the Mongoose `uploadAudio` controller. -/
inductive MUploadResp where
  | badRequest (msg : String)
  | validationFailed (details : List VErr)
  | created (audio : PublicInfo)
deriving Repr, DecidableEq

/-- The `uploadAudio` controller of `src/unnamed/part_000` (lines 7-119),
entered after multer already persisted the file. 400 when no file arrived;
400 with cleanup of the local temp file when title, mood or environment is
falsy (S3 files have no local `path`, so nothing is unlinked for them); then
the document is saved. On a mongoose `ValidationError` the catch block unlinks
the local file when it exists, but for S3 uploads removes nothing (a comment
claims `multer-s3` cleans up automatically) and answers 400 with the validator
messages. On success the record is inserted, the uploader's counter bumped and
201 returned. -/
def uploadAudioM (st : MState) (file : Option MulterFile) (b : MBody)
    (userId newId : String) (now : Nat) : MState × MUploadResp :=
  match file with
  | none => (st, .badRequest "No audio file uploaded.")
  | some f =>
    if falsy b.title ∨ falsy b.mood ∨ falsy b.environment then
      match f with
      | .disk _ path _ _ _ =>
        ({ st with localFiles := st.localFiles.erase path },
         .badRequest "Title, mood, and environment are required.")
      | .s3 _ _ _ _ _ =>
        (st, .badRequest "Title, mood, and environment are required.")
    else
      let audio := mkAudioDoc f b userId newId now
      match validateAudio audio with
      | [] =>
        ({ st with db := audio :: st.db, uploads := bumpUploads st.uploads userId 1 },
         .created (getPublicInfo audio))
      | e :: es =>
        match f with
        | .disk _ path _ _ _ =>
          ({ st with localFiles :=
              if path ∈ st.localFiles then st.localFiles.erase path else st.localFiles },
           .validationFailed (e :: es))
        | .s3 _ _ _ _ _ => (st, .validationFailed (e :: es))

/-- The full `POST /api/audio/upload` pipeline of the Mongoose app: the multer
storage write (when a file is part of the request) followed by the controller. -/
def handleUploadM (st : MState) (file : Option MulterFile) (b : MBody)
    (userId newId : String) (now : Nat) : MState × MUploadResp :=
  let st1 := match file with
    | some f => multerStore st f
    | none => st
  uploadAudioM st1 file b userId newId now

/-- Responses of the `deleteAudio` controller. -/
inductive MDeleteResp where
  | notFound
  | accessDenied
  | deleted
deriving Repr, DecidableEq

/-- The `deleteAudio` controller of `src/unnamed/part_000` (lines 335-402):
404 when absent (inactive records are still deletable), 403 for non-owners;
then the stored object is removed — S3 `DeleteObjectCommand` on `filename`
when `filePath` is an http URL, otherwise a guarded local unlink — with any
failure of that removal logged and swallowed (`s3SendOk` and `unlinkOk` model
those outcomes); finally the record is hard-deleted and the uploader's counter
decremented. -/
def deleteAudio (st : MState) (id userId : String) (s3SendOk unlinkOk : Bool) :
    MState × MDeleteResp :=
  match findById st.db id with
  | none => (st, .notFound)
  | some audio =>
    if audio.uploadedBy ≠ userId then (st, .accessDenied)
    else
      let st1 :=
        if jsStartsWith audio.filePath "http" = true then
          if audio.filename ≠ "" ∧ s3SendOk then
            { st with s3Objects := st.s3Objects.erase audio.filename }
          else st
        else
          if audio.filePath ∈ st.localFiles ∧ unlinkOk then
            { st with localFiles := st.localFiles.erase audio.filePath }
          else st
      ({ st1 with
          db := st1.db.filter (fun a => a.id ≠ id)
          uploads := bumpUploads st1.uploads userId (-1) },
       .deleted)

/-- Node's `path.extname` for ordinary file names: the suffix from the last
dot, the empty string when there is no dot or when the only dot is the leading
character (as in `.bashrc`). -/
def extname (name : String) : String :=
  let cs := name.data
  let pre := cs.reverse.takeWhile (fun c => c ≠ '.')
  if pre.length = cs.length then ""
  else if pre.length + 1 = cs.length then ""
  else "." ++ String.mk pre.reverse

/-- Storage key generated by `StorageService.uploadFile` in
`src/unnamed/part_003` line 23: the millisecond timestamp `Date.now()`
concatenated with the original extension — no random component. -/
def svcKey (now : Nat) (originalname : String) : String :=
  toString now ++ extname originalname

/-- Storage key generated by the `multer-s3` configuration in
`src/routes/audio.js` lines 44-48: `'audio-' + Date.now() + '-' +
Math.round(Math.random() * 1e9) + extension`. -/
def multerS3Key (now rand : Nat) (originalname : String) : String :=
  "audio-" ++ toString now ++ "-" ++ toString rand ++ extname originalname

/-- Local filename generated by the disk-storage configuration in
`src/routes/audio.js` lines 57-61 (`file.fieldname` is `audio` on this
route). -/
def multerDiskName (fieldname : String) (now rand : Nat) (originalname : String) : String :=
  fieldname ++ "-" ++ toString now ++ "-" ++ toString rand ++ extname originalname

/-- A multer disk file handed to the Supabase controller: temp path, client
metadata and (for tracking overwrites) its binary payload. -/
structure SFile where
  path : String
  originalname : String
  mimetype : String
  size : Nat
  content : String
deriving Repr, DecidableEq

/-- A row of the Supabase `audios` table as inserted by
`src/controllers/audioController.js`. -/
structure SRow where
  user_id : String
  title : String
  mood : String
  environment : String
  file_path : String
  file_url : String
  file_size : Nat
  file_type : String
  original_name : String
deriving Repr, DecidableEq

/-- World state of the Supabase app: the storage backend (key to content,
covering the S3 bucket or the uploads directory), multer's temp files, and the
`audios` table. -/
structure SState where
  objects : List (String × String) := []
  tmp : List (String × String) := []
  rows : List SRow := []
deriving Repr, DecidableEq

/-- Key membership in the storage backend. -/
def hasKey (objects : List (String × String)) (key : String) : Bool :=
  objects.any (fun kv => kv.1 = key)

/-- Storing an object: both `s3.upload` and `fs.renameSync` replace any object
already present under the same key. -/
def putObject (objects : List (String × String)) (key content : String) :
    List (String × String) :=
  (key, content) :: objects.filter (fun kv => kv.1 ≠ key)

/-- Public location reported by `s3.upload` (`data.Location`). -/
def s3Location (key : String) : String := "https://bucket.s3/" ++ key

/-- The `StorageService.uploadFile` of `src/unnamed/part_003` (lines 22-51):
generates `svcKey`, then either streams to S3 (`uploadOk` models the promise;
on success the temp file is unlinked) or renames the temp file into the
uploads directory. Returns the new state with `filePath` (the key) and the
public `location`. -/
def svcUploadFile (useS3 uploadOk : Bool) (now : Nat) (st : SState) (f : SFile) :
    Except String (SState × String × String) :=
  let key := svcKey now f.originalname
  if useS3 then
    if uploadOk then
      .ok ({ st with
              objects := putObject st.objects key f.content
              tmp := st.tmp.filter (fun kv => kv.1 ≠ f.path) },
           key, s3Location key)
    else .error "s3 upload failed"
  else
    .ok ({ st with
            objects := putObject st.objects key f.content
            tmp := st.tmp.filter (fun kv => kv.1 ≠ f.path) },
         key, "/uploads/" ++ key)

/-- The `StorageService.deleteFile` of `src/unnamed/part_003` (lines 60-73):
on S3 a `deleteObject` call (which succeeds also when the key is absent;
`deleteOk` models only the transport, so `deleteOk = false` is a rejected
promise, which this method does not catch), locally a `fs.existsSync` guard
followed by `fs.unlinkSync`, so an absent file is silently tolerated. -/
def svcDeleteFile (useS3 deleteOk : Bool) (st : SState) (key : String) :
    Except String SState :=
  if useS3 then
    if deleteOk then .ok { st with objects := st.objects.filter (fun kv => kv.1 ≠ key) }
    else .error "s3 delete failed"
  else
    if hasKey st.objects key then
      .ok { st with objects := st.objects.filter (fun kv => kv.1 ≠ key) }
    else .ok st

/-- Responses of the Supabase `uploadAudio` controller. -/
inductive SResp where
  | badRequest (msg : String)
  | created (row : SRow)
  | serverError (msg : String)
deriving Repr, DecidableEq

/-- The catch-all 500 body of the Supabase upload controller. -/
def sUploadErr : SResp := .serverError "Internal server error during audio upload"

/-- The `uploadAudio` controller of `src/controllers/audioController.js`
(lines 6-53): 400 when no file is present; otherwise `storage.uploadFile`
runs, the row is inserted with `title || originalName` and
`mood/environment || 'unspecified'` defaults, and on an insert error
(`insertErr`, abstract since the Supabase schema is not in the repository) the
controller compensates with `storage.deleteFile(filePath)` and rethrows, so
every failure — store, insert, or compensation — surfaces as the same
uniform 500 body. -/
def uploadAudioS (useS3 uploadOk : Bool) (insertErr : Option String) (deleteOk : Bool)
    (now : Nat) (st : SState) (file : Option SFile)
    (title mood environment : Option String) (userId : String) : SState × SResp :=
  match file with
  | none => (st, .badRequest "No audio file uploaded")
  | some f =>
    match svcUploadFile useS3 uploadOk now st f with
    | .error _ => (st, sUploadErr)
    | .ok (st1, filePath, location) =>
      let row : SRow :=
        { user_id := userId
          title := if falsy title then f.originalname else title.getD ""
          mood := if falsy mood then "unspecified" else mood.getD ""
          environment := if falsy environment then "unspecified" else environment.getD ""
          file_path := filePath
          file_url := location
          file_size := f.size
          file_type := f.mimetype
          original_name := f.originalname }
      match insertErr with
      | none => ({ st1 with rows := st1.rows ++ [row] }, .created row)
      | some _ =>
        match svcDeleteFile useS3 deleteOk st1 filePath with
        | .ok st2 => (st2, sUploadErr)
        | .error _ => (st1, sUploadErr)

/-- Stable insertion of an audio record into a list sorted by `createdAt`
descending. -/
def insertDesc (a : Audio) : List Audio → List Audio
  | [] => [a]
  | b :: rest =>
    if a.createdAt ≤ b.createdAt then b :: insertDesc a rest else a :: b :: rest

/-- The `.sort(createdAt: -1)` of the `getUserAudio` query, modelled as a
stable sort by `createdAt` descending. -/
def sortByCreatedAtDesc : List Audio → List Audio
  | [] => []
  | a :: rest => insertDesc a (sortByCreatedAtDesc rest)

/-- Query filters of `getUserAudio` in `src/unnamed/part_000` (lines 124-136). -/
structure MFilters where
  mood : Option String := none
  environment : Option String := none
  genre : Option String := none
deriving Repr, DecidableEq

/-- The mongo query built by `getUserAudio`: the caller's records, active only,
conjunctively narrowed by each truthy filter (lower-cased). -/
def userAudioQuery (db : List Audio) (userId : String) (fl : MFilters) : List Audio :=
  db.filter (fun a =>
    a.uploadedBy = userId ∧ a.isActive = true ∧
    (falsy fl.mood ∨ a.mood = jsToLower (fl.mood.getD "")) ∧
    (falsy fl.environment ∨ a.environment = jsToLower (fl.environment.getD "")) ∧
    (falsy fl.genre ∨ a.genre = some (jsToLower (fl.genre.getD ""))))

/-- The pagination block of the `getUserAudio` (and `searchAudio`) response. -/
structure PageInfo where
  currentPage : Nat
  totalPages : Nat
  totalCount : Nat
  hasNext : Bool
  hasPrev : Bool
deriving Repr, DecidableEq

/-- Exact model of JavaScript `Math.ceil(a / b)` on naturals: the rational
division, rounded up. -/
def mathCeilDiv (a b : Nat) : Nat := ⌈(a : ℚ) / (b : ℚ)⌉₊

/-- The `getUserAudio` controller of `src/unnamed/part_000` (lines 122-165):
offset pagination with `skip = (page-1)*limit`, records sorted by `createdAt`
descending, `totalPages = Math.ceil(totalCount/limit)`,
`hasNext = skip + audioFiles.length < totalCount`, `hasPrev = page > 1`. -/
def getUserAudio (db : List Audio) (userId : String) (page limit : Nat)
    (fl : MFilters) : List PublicInfo × PageInfo :=
  let skip := (page - 1) * limit
  let matching := userAudioQuery db userId fl
  let audioFiles := ((sortByCreatedAtDesc matching).drop skip).take limit
  let totalCount := matching.length
  (audioFiles.map getPublicInfo,
   { currentPage := page
     totalPages := mathCeilDiv totalCount limit
     totalCount := totalCount
     hasNext := skip + audioFiles.length < totalCount
     hasPrev := page > 1 })

/-- Decimal digit characters of a natural number, most significant first. -/
def repChars (n : Nat) : List Char :=
  if _h : n < 10 then [Nat.digitChar n]
  else repChars (n / 10) ++ [Nat.digitChar (n % 10)]
decreasing_by exact Nat.div_lt_self (by omega) (by omega)

/-! Example records used to instantiate the claim theorems. -/

/-- A soft-deactivated record that is nevertheless public and owned by `A`. -/
def inactivePubRec : Audio :=
  { id := "r1", title := "t", filename := "f.mp3", originalName := "f.mp3",
    filePath := "/up/f.mp3", fileSize := 1, mimeType := "audio/mpeg",
    mood := "calm", environment := "home", uploadedBy := "A",
    isPublic := true, isActive := false, createdAt := 0 }

/-- An active private record owned by `A`. -/
def privRec : Audio :=
  { id := "pv", title := "t", filename := "g.mp3", originalName := "g.mp3",
    filePath := "/up/g.mp3", fileSize := 1, mimeType := "audio/mpeg",
    mood := "calm", environment := "home", uploadedBy := "A",
    isPublic := false, isActive := true, createdAt := 0 }

/-- An active public record owned by `A`. -/
def pubRec : Audio :=
  { id := "pb", title := "t", filename := "h.mp3", originalName := "h.mp3",
    filePath := "/up/h.mp3", fileSize := 1, mimeType := "audio/mpeg",
    mood := "calm", environment := "home", uploadedBy := "A",
    isPublic := true, isActive := true, createdAt := 0 }

/-- Checks that an audio record's storage reference is exactly what the multer
storage write of its upload produced, and that the referenced object is
present in the given state: `multer-s3` files store the S3 key in `filename`,
disk files store multer's filename and local path. -/
def storedRefOk (stQ : MState) (f : MulterFile) (a : Audio) : Bool :=
  match f with
  | .s3 key _ _ _ _ => decide (a.filename = key) && stQ.s3Objects.contains key
  | .disk fn p _ _ _ =>
      decide (a.filename = fn) && decide (a.filePath = p) && stQ.localFiles.contains p

/-- A valid multer disk file used to instantiate upload theorems. -/
def vFile : MulterFile := .disk "audio-1-2.mp3" "/up/audio-1-2.mp3" "song.mp3" "audio/mpeg" 7

/-- A complete, schema-valid upload body. -/
def vb : MBody := { title := some "T", mood := some "calm", environment := some "home" }

/-- The document the Mongoose controller builds from `vFile` and `vb`. -/
def vDoc : Audio := mkAudioDoc vFile vb "A" "i1" 3

/-- An S3 multer file whose upload will fail mood validation. -/
def c1file : MulterFile :=
  .s3 "audio-9-7.mp3" "https://bucket.s3/audio-9-7.mp3" "song.mp3" "audio/mpeg" 2048

/-- An upload body whose mood `furious` is outside the mood enumeration. -/
def c1body : MBody :=
  { title := some "My song", mood := some "furious", environment := some "home" }

/-- A multer temp file for the Supabase upload theorems. -/
def c4f : SFile :=
  { path := "/tmp/x", originalname := "c.mp3", mimetype := "audio/mpeg", size := 3,
    content := "xx" }

/-- Initial Supabase-app state holding `c4f` as a temp file. -/
def c4stS : SState := { tmp := [("/tmp/x", "xx")] }

/-- An upload body with a title but no mood and no environment. -/
def mbNoMood : MBody := { title := some "T" }

/-- First of two files fed to `StorageService.uploadFile` in the same
millisecond. -/
def c6fileA : SFile :=
  { path := "/tmp/u1", originalname := "one.mp3", mimetype := "audio/mpeg", size := 5,
    content := "payload-one" }

/-- Second of two files fed to `StorageService.uploadFile` in the same
millisecond. -/
def c6fileB : SFile :=
  { path := "/tmp/u2", originalname := "two.mp3", mimetype := "audio/mpeg", size := 6,
    content := "payload-two" }

/-- Initial state for the two same-millisecond uploads. -/
def c6st0 : SState := { tmp := [("/tmp/u1", "payload-one"), ("/tmp/u2", "payload-two")] }

/-- The storage state after uploading `c6fileA` and then `c6fileB`, both at
millisecond 99; errors cannot occur on the local backend. -/
def c6afterTwo : SState :=
  match svcUploadFile false true 99 c6st0 c6fileA with
  | .ok (st1, _, _) =>
    (match svcUploadFile false true 99 st1 c6fileB with
     | .ok (st2, _, _) => st2
     | .error _ => st1)
  | .error _ => c6st0

/-- One of 25 identical-owner records, distinguished by id and timestamp. -/
def mk25 (i : Nat) : Audio :=
  { id := toString i, title := "t", filename := "f.mp3", originalName := "f.mp3",
    filePath := "/up/f.mp3", fileSize := 1, mimeType := "audio/mpeg",
    mood := "calm", environment := "home", uploadedBy := "u",
    isPublic := true, createdAt := i }

/-- A collection of 25 records owned by `u`. -/
def exDb25 : List Audio := (List.range 25).map mk25

theorem repChars_lt {n : Nat} (h : n < 10) : repChars n = [Nat.digitChar n] := by
  rw [repChars]
  simp [h]

theorem repChars_ge {n : Nat} (h : ¬n < 10) :
    repChars n = repChars (n / 10) ++ [Nat.digitChar (n % 10)] := by
  rw [repChars]
  simp [h]

theorem toDigitsCore_succ (b fuel n : Nat) (ds : List Char) :
    Nat.toDigitsCore b (fuel + 1) n ds =
      if n / b = 0 then Nat.digitChar (n % b) :: ds
      else Nat.toDigitsCore b fuel (n / b) (Nat.digitChar (n % b) :: ds) := rfl

theorem toDigitsCore10_eq_repChars :
    ∀ (fuel n : Nat) (ds : List Char), n ≤ fuel →
      Nat.toDigitsCore 10 (fuel + 1) n ds = repChars n ++ ds := by
  intro fuel
  induction fuel with
  | zero =>
    intro n ds hn
    have h0 : n = 0 := Nat.le_zero.mp hn
    subst h0
    rw [toDigitsCore_succ, repChars_lt (by omega)]
    simp
  | succ f ih =>
    intro n ds hn
    by_cases h10 : n < 10
    · have hdiv : n / 10 = 0 := Nat.div_eq_of_lt h10
      have hmod : n % 10 = n := Nat.mod_eq_of_lt h10
      rw [toDigitsCore_succ, if_pos hdiv, repChars_lt h10, hmod]
      simp
    · have hdiv0 : n / 10 ≠ 0 := by
        intro h
        exact h10 (by omega)
      have hlt : n / 10 ≤ f := by
        have : n / 10 < n := Nat.div_lt_self (by omega) (by omega)
        omega
      rw [toDigitsCore_succ, if_neg hdiv0, ih (n / 10) (Nat.digitChar (n % 10) :: ds) hlt,
        repChars_ge h10]
      simp

theorem toDigits10_eq_repChars (n : Nat) : Nat.toDigits 10 n = repChars n := by
  have := toDigitsCore10_eq_repChars n n [] (Nat.le_refl n)
  simpa [Nat.toDigits] using this

theorem digitChar_inj_fin : ∀ a b : Fin 10, Nat.digitChar a.1 = Nat.digitChar b.1 → a = b := by
  decide

theorem digitChar_inj10 (a b : Nat) (ha : a < 10) (hb : b < 10)
    (h : Nat.digitChar a = Nat.digitChar b) : a = b := by
  have := digitChar_inj_fin ⟨a, ha⟩ ⟨b, hb⟩ h
  exact congrArg Fin.val this

theorem repChars_ne_nil (n : Nat) : repChars n ≠ [] := by
  by_cases h : n < 10
  · rw [repChars_lt h]
    simp
  · rw [repChars_ge h]
    simp

theorem repChars_inj (m : Nat) : ∀ n, repChars m = repChars n → m = n := by
  induction m using Nat.strong_induction_on with
  | _ m ih =>
    intro n h
    by_cases hm : m < 10 <;> by_cases hn : n < 10
    · rw [repChars_lt hm, repChars_lt hn] at h
      simp only [List.cons.injEq, and_true] at h
      exact digitChar_inj10 m n hm hn h
    · rw [repChars_lt hm, repChars_ge hn] at h
      have hlen := congrArg List.length h
      simp only [List.length_singleton, List.length_append, List.length_cons,
        List.length_nil] at hlen
      have hzero : (repChars (n / 10)).length = 0 := by omega
      exact absurd (List.length_eq_zero.mp hzero) (repChars_ne_nil (n / 10))
    · rw [repChars_ge hm, repChars_lt hn] at h
      have hlen := congrArg List.length h
      simp only [List.length_singleton, List.length_append, List.length_cons,
        List.length_nil] at hlen
      have hzero : (repChars (m / 10)).length = 0 := by omega
      exact absurd (List.length_eq_zero.mp hzero) (repChars_ne_nil (m / 10))
    · rw [repChars_ge hm, repChars_ge hn] at h
      have hinj := List.append_inj' h (by simp)
      have hdiv : m / 10 = n / 10 :=
        ih (m / 10) (Nat.div_lt_self (by omega) (by omega)) (n / 10) hinj.1
      have hmod : m % 10 = n % 10 := by
        have hs := hinj.2
        simp only [List.cons.injEq, and_true] at hs
        exact digitChar_inj10 _ _ (Nat.mod_lt _ (by omega)) (Nat.mod_lt _ (by omega)) hs
      omega

theorem natToString_injective (m n : Nat) (h : toString m = toString n) : m = n := by
  have hdata : (Nat.toDigits 10 m) = (Nat.toDigits 10 n) := by
    have : (toString m).data = (toString n).data := congrArg String.data h
    simpa [toString, Nat.repr, List.asString] using this
  rw [toDigits10_eq_repChars, toDigits10_eq_repChars] at hdata
  exact repChars_inj m n hdata

theorem string_data_inj {s t : String} (h : s.data = t.data) : s = t := by
  cases s
  cases t
  exact congrArg String.mk (by simpa using h)

theorem toString_nat_inj {m n : Nat} (h : (toString m : String) = toString n) : m = n :=
  natToString_injective m n h

theorem string_append_cancel_left {p x y : String} (h : p ++ x = p ++ y) : x = y := by
  have hd := congrArg String.data h
  simp only [String.data_append] at hd
  exact string_data_inj (List.append_cancel_left hd)

theorem string_append_cancel_right {x y s : String} (h : x ++ s = y ++ s) : x = y := by
  have hd := congrArg String.data h
  simp only [String.data_append] at hd
  exact string_data_inj (List.append_cancel_right hd)

theorem svcKey_inj_now {t1 t2 : Nat} {o1 o2 : String} (hext : extname o1 = extname o2)
    (h : svcKey t1 o1 = svcKey t2 o2) : t1 = t2 := by
  unfold svcKey at h
  rw [hext] at h
  exact toString_nat_inj (string_append_cancel_right h)

theorem multerS3Key_inj_rand {t r1 r2 : Nat} {o1 o2 : String}
    (hext : extname o1 = extname o2) (h : multerS3Key t r1 o1 = multerS3Key t r2 o2) :
    r1 = r2 := by
  unfold multerS3Key at h
  rw [hext] at h
  exact toString_nat_inj (string_append_cancel_left (string_append_cancel_right h))

theorem multerDiskName_inj_rand {fn : String} {t r1 r2 : Nat} {o1 o2 : String}
    (hext : extname o1 = extname o2)
    (h : multerDiskName fn t r1 o1 = multerDiskName fn t r2 o2) : r1 = r2 := by
  unfold multerDiskName at h
  rw [hext] at h
  exact toString_nat_inj (string_append_cancel_left (string_append_cancel_right h))

theorem length_insertDesc (a : Audio) (l : List Audio) :
    (insertDesc a l).length = l.length + 1 := by
  induction l with
  | nil => simp [insertDesc]
  | cons b rest ih =>
    by_cases h : a.createdAt ≤ b.createdAt <;> simp [insertDesc, h, ih]

theorem length_sortByCreatedAtDesc (l : List Audio) :
    (sortByCreatedAtDesc l).length = l.length := by
  induction l with
  | nil => rfl
  | cons a rest ih => simp [sortByCreatedAtDesc, length_insertDesc, ih]

theorem mathCeilDiv_eq (a b : Nat) (hb : 0 < b) : mathCeilDiv a b = (a + b - 1) / b := by
  have hbQ : (0 : ℚ) < (b : ℚ) := by exact_mod_cast hb
  unfold mathCeilDiv
  apply le_antisymm
  · apply Nat.ceil_le.mpr
    have h1 := Nat.div_add_mod (a + b - 1) b
    have h2 := Nat.mod_lt (a + b - 1) hb
    have hle : a ≤ b * ((a + b - 1) / b) := by omega
    rw [div_le_iff₀ hbQ]
    calc (a : ℚ) ≤ ((b * ((a + b - 1) / b) : ℕ) : ℚ) := by exact_mod_cast hle
      _ = (((a + b - 1) / b : ℕ) : ℚ) * (b : ℚ) := by push_cast; ring
  · have h3 : (a : ℚ) / b ≤ (⌈(a : ℚ) / b⌉₊ : ℚ) := Nat.le_ceil _
    have h4 : (a : ℚ) ≤ (⌈(a : ℚ) / b⌉₊ : ℚ) * b := by rwa [div_le_iff₀ hbQ] at h3
    have h5 : a ≤ ⌈(a : ℚ) / b⌉₊ * b := by exact_mod_cast h4
    have h6 : (a + b - 1) / b < ⌈(a : ℚ) / b⌉₊ + 1 := by
      rw [Nat.div_lt_iff_lt_mul hb]
      calc a + b - 1 < (⌈(a : ℚ) / b⌉₊ * b) + b := by omega
        _ = (⌈(a : ℚ) / b⌉₊ + 1) * b := by ring
    omega

/-- Claim C10: a record with `isActive = false` is answered with the uniform
404 body by `getAudio`, `updateAudio` and `playAudio` for every caller — the
owner included — and the collection is left unchanged by the two mutating
operations. -/
theorem claim10_inactive_invisible (db : List Audio) (id : String)
    (viewer : Option String) (updater : String) (b : UpdateBody)
    (player : Option String) (now : Nat) (a : Audio)
    (hfind : findById db id = some a) (hinact : a.isActive = false) :
    getAudio db id viewer = .error notFoundResp
    ∧ updateAudio db id updater b = (db, .error notFoundResp)
    ∧ playAudio db id player now = (db, .error notFoundResp) := by
  unfold getAudio updateAudio playAudio
  rw [hfind]
  simp [hinact]

/-- Witness for C10: the owner of a deactivated record gets 404 from all
three operations. -/
theorem claim10_inactive_invisible_witness :
    getAudio [inactivePubRec] "r1" (some "A") = .error notFoundResp
    ∧ updateAudio [inactivePubRec] "r1" "A" {} = ([inactivePubRec], .error notFoundResp)
    ∧ playAudio [inactivePubRec] "r1" (some "A") 7 = ([inactivePubRec], .error notFoundResp) :=
  claim10_inactive_invisible [inactivePubRec] "r1" (some "A") "A" {} (some "A") 7
    inactivePubRec (by rfl) (by rfl)

/-- Counterexample to C3 as stated: `inactivePubRec` has `isPublic = true` and
its owner `A` asks for it, yet `getAudio` answers 404 instead of the record's
content, because the record is soft-deactivated — so "content iff isPublic or
owner" fails without an activity condition. -/
theorem claim3_visibility_counterexample :
    inactivePubRec.isPublic = true
    ∧ some "A" = some inactivePubRec.uploadedBy
    ∧ getAudio [inactivePubRec] "r1" (some "A") = .error notFoundResp := by
  refine ⟨rfl, rfl, ?_⟩
  rfl

/-- Claim C3, amended: a `getAudio` caller receives the record's content if
and only if the record exists, is active, and is public or owned by the
caller; an existing active record that fails the check yields the
access-denied error, and an absent or inactive record the not-found error —
never the content. -/
theorem claim3_visibility_amended (db : List Audio) (id : String) (uid : Option String) :
    ((∃ info, getAudio db id uid = .ok info) ↔
      (∃ a, findById db id = some a ∧ a.isActive = true ∧
        (a.isPublic = true ∨ uid = some a.uploadedBy)))
    ∧ (∀ a, findById db id = some a → a.isActive = true → a.isPublic = false →
        uid ≠ some a.uploadedBy → getAudio db id uid = .error accessDeniedResp)
    ∧ (∀ a, findById db id = some a → a.isActive = true →
        (a.isPublic = true ∨ uid = some a.uploadedBy) →
        getAudio db id uid = .ok (getPublicInfo a)) := by
  refine ⟨?_, ?_, ?_⟩
  · unfold getAudio
    cases hf : findById db id with
    | none => simp
    | some a =>
      by_cases hact : a.isActive
      · by_cases hpub : a.isPublic
        · simp [hact, hpub]
        · by_cases hown : uid = some a.uploadedBy
          · simp [hact, hpub, hown]
          · simp [hact, hpub, hown]
      · simp [hact]
  · intro a hfind hact hpub hown
    unfold getAudio
    rw [hfind]
    simp [hact, hpub, hown]
  · intro a hfind hact hvis
    unfold getAudio
    rw [hfind]
    rcases hvis with hpub | hown
    · simp [hact, hpub]
    · simp [hact, hown]

/-- Witness for the amended C3: the public record is served to a stranger, the
private record of `A` is denied to `B` with the access-denied body, and the
same private record is served to its owner `A`. -/
theorem claim3_visibility_amended_witness :
    getAudio [privRec, pubRec] "pb" none = .ok (getPublicInfo pubRec)
    ∧ getAudio [privRec, pubRec] "pv" (some "B") = .error accessDeniedResp
    ∧ getAudio [privRec, pubRec] "pv" (some "A") = .ok (getPublicInfo privRec) :=
  ⟨(claim3_visibility_amended [privRec, pubRec] "pb" none).2.2 pubRec (by rfl) (by rfl)
      (Or.inl rfl),
   (claim3_visibility_amended [privRec, pubRec] "pv" (some "B")).2.1 privRec (by rfl) (by rfl)
      (by rfl) (by decide),
   (claim3_visibility_amended [privRec, pubRec] "pv" (some "A")).2.2 privRec (by rfl) (by rfl)
      (Or.inr rfl)⟩

/-- Counterexample to C9 as stated: the same request (id `pv`, caller `B`)
gets the 403 access-denied body when the private record exists but the 404
not-found body when it is absent — the two responses differ, so the reply does
reveal whether the record exists. -/
theorem claim9_uniform_counterexample :
    getAudio [privRec] "pv" (some "B") = .error accessDeniedResp
    ∧ getAudio ([] : List Audio) "pv" (some "B") = .error notFoundResp
    ∧ accessDeniedResp ≠ notFoundResp := by
  refine ⟨by rfl, by rfl, by decide⟩

/-- Claim C9, amended: a `getAudio` request that does not return the record
never carries the content, but the error is not uniform: an absent record and
an inactive record yield the 404 not-found body, while an existing active
private record of another user yields the 403 access-denied body, which
reveals the record's existence. -/
theorem claim9_responses_amended (db : List Audio) (id : String) (uid : Option String) :
    (findById db id = none → getAudio db id uid = .error notFoundResp)
    ∧ (∀ a, findById db id = some a → a.isActive = false →
        getAudio db id uid = .error notFoundResp)
    ∧ (∀ a, findById db id = some a → a.isActive = true → a.isPublic = false →
        uid ≠ some a.uploadedBy → getAudio db id uid = .error accessDeniedResp) := by
  refine ⟨?_, ?_, ?_⟩
  · intro hf
    unfold getAudio
    rw [hf]
  · intro a hf hact
    unfold getAudio
    rw [hf]
    simp [hact]
  · intro a hf hact hpub hown
    unfold getAudio
    rw [hf]
    simp [hact, hpub, hown]

/-- Witness for the amended C9: both error shapes, produced at concrete
states. -/
theorem claim9_responses_amended_witness :
    getAudio ([] : List Audio) "pv" (some "B") = .error notFoundResp
    ∧ getAudio [inactivePubRec] "r1" (some "B") = .error notFoundResp
    ∧ getAudio [privRec] "pv" (some "B") = .error accessDeniedResp :=
  ⟨(claim9_responses_amended [] "pv" (some "B")).1 (by rfl),
   (claim9_responses_amended [inactivePubRec] "r1" (some "B")).2.1 inactivePubRec
      (by rfl) (by rfl),
   (claim9_responses_amended [privRec] "pv" (some "B")).2.2 privRec (by rfl) (by rfl)
      (by rfl) (by decide)⟩

theorem hasKey_filter (l : List (String × String)) (key : String) :
    hasKey (l.filter (fun kv => kv.1 ≠ key)) key = false := by
  induction l with
  | nil => rfl
  | cons kv rest ih =>
    by_cases h : kv.1 = key
    · rw [List.filter_cons, if_neg (by simp [h])]
      exact ih
    · rw [List.filter_cons, if_pos (by simp [h])]
      simp [hasKey, h, ih]

theorem findById_filter_ne (l : List Audio) (id : String) :
    findById (l.filter (fun a => a.id ≠ id)) id = none := by
  induction l with
  | nil => rfl
  | cons a rest ih =>
    by_cases h : a.id = id
    · rw [List.filter_cons, if_neg (by simp [h])]
      exact ih
    · rw [List.filter_cons, if_pos (by simp [h])]
      simp [findById, List.find?_cons, h, ih]

/-- Claim C5: the local branch of `StorageService.deleteFile` never raises —
an absent object is tolerated silently and a second remove of the same key
succeeds as a no-op — the S3 branch removes the key irrespective of its
presence when the service call goes through, and the remove performed by the
`deleteAudio` controller is best-effort: whatever the S3 send or the local
unlink does (`s3SendOk`, `unlinkOk`), the record deletion still completes and
answers success. -/
theorem claim5_remove_swallowed (ok : Bool) (st : SState) (key : String)
    (stM : MState) (id userId : String) (s3ok unlinkOk : Bool) (a : Audio)
    (hfind : findById stM.db id = some a) (hown : a.uploadedBy = userId) :
    (hasKey st.objects key = false → svcDeleteFile false ok st key = .ok st)
    ∧ (∃ st1, svcDeleteFile false ok st key = .ok st1
        ∧ svcDeleteFile false ok st1 key = .ok st1)
    ∧ svcDeleteFile true true st key
        = .ok { st with objects := st.objects.filter (fun kv => kv.1 ≠ key) }
    ∧ (deleteAudio stM id userId s3ok unlinkOk).2 = .deleted
    ∧ findById (deleteAudio stM id userId s3ok unlinkOk).1.db id = none := by
  refine ⟨?_, ?_, ?_, ?_, ?_⟩
  · intro h
    simp [svcDeleteFile, h]
  · by_cases hk : hasKey st.objects key = true
    · refine ⟨{ st with objects := st.objects.filter (fun kv => kv.1 ≠ key) }, ?_, ?_⟩
      · simp [svcDeleteFile, hk]
      · simp [svcDeleteFile, hasKey_filter]
    · have hk' : hasKey st.objects key = false := by simpa using hk
      exact ⟨st, by simp [svcDeleteFile, hk'], by simp [svcDeleteFile, hk']⟩
  · simp [svcDeleteFile]
  · unfold deleteAudio
    rw [hfind]
    simp [hown]
  · unfold deleteAudio
    rw [hfind]
    simp only [hown, ne_eq, not_true_eq_false, if_false, ite_not]
    split_ifs <;> simpa using findById_filter_ne stM.db id

/-- Witness for C5: removing an absent key succeeds twice in a row, and a
record deletion whose S3 send and local unlink both fail still deletes the
record and reports success. -/
theorem claim5_remove_swallowed_witness :
    (hasKey ({} : SState).objects "k" = false → svcDeleteFile false true {} "k" = .ok {})
    ∧ (∃ st1, svcDeleteFile false true {} "k" = .ok st1
        ∧ svcDeleteFile false true st1 "k" = .ok st1)
    ∧ svcDeleteFile true true {} "k"
        = .ok { ({} : SState) with
                objects := ({} : SState).objects.filter (fun kv => kv.1 ≠ "k") }
    ∧ (deleteAudio { db := [pubRec] } "pb" "A" false false).2 = .deleted
    ∧ findById (deleteAudio { db := [pubRec] } "pb" "A" false false).1.db "pb" = none :=
  claim5_remove_swallowed true {} "k" { db := [pubRec] } "pb" "A" false false pubRec
    (by rfl) (by rfl)

theorem hasKey_putObject (l : List (String × String)) (key content : String) :
    hasKey (putObject l key content) key = true := by
  simp [hasKey, putObject]

theorem svcUploadFile_ok {useS3 uploadOk : Bool} {snow : Nat} {sSt : SState} {f : SFile}
    {res : SState × String × String}
    (h : svcUploadFile useS3 uploadOk snow sSt f = .ok res) :
    res = ({ sSt with
              objects := putObject sSt.objects (svcKey snow f.originalname) f.content
              tmp := sSt.tmp.filter (fun kv => kv.1 ≠ f.path) },
           svcKey snow f.originalname, res.2.2) := by
  unfold svcUploadFile at h
  split_ifs at h <;> (injection h with h; subst h; rfl)

theorem svcDeleteFile_ok_rows {useS3 deleteOk : Bool} {st : SState} {key : String}
    {st2 : SState} (h : svcDeleteFile useS3 deleteOk st key = .ok st2) :
    st2.rows = st.rows := by
  unfold svcDeleteFile at h
  split_ifs at h <;> (injection h with h; subst h; rfl)

theorem handleUploadM_db (st : MState) (file : Option MulterFile) (b : MBody)
    (userId newId : String) (now : Nat) :
    (handleUploadM st file b userId newId now).1.db = st.db
    ∨ (∃ f, file = some f
        ∧ (handleUploadM st file b userId newId now).1.db
            = mkAudioDoc f b userId newId now :: st.db
        ∧ storedRefOk (handleUploadM st file b userId newId now).1 f
            (mkAudioDoc f b userId newId now) = true) := by
  match file with
  | none => exact Or.inl rfl
  | some f =>
    match f with
    | .s3 key loc o mt sz =>
      by_cases hreq : falsy b.title = true ∨ falsy b.mood = true ∨ falsy b.environment = true
      · left
        unfold handleUploadM uploadAudioM multerStore
        dsimp only
        rw [if_pos hreq]
      · cases hv : validateAudio (mkAudioDoc (.s3 key loc o mt sz) b userId newId now) with
        | nil =>
          right
          refine ⟨.s3 key loc o mt sz, rfl, ?_, ?_⟩
          · unfold handleUploadM uploadAudioM multerStore
            dsimp only
            rw [if_neg hreq, hv]
          · unfold handleUploadM uploadAudioM multerStore
            dsimp only
            rw [if_neg hreq, hv]
            simp [storedRefOk, mkAudioDoc]
        | cons e es =>
          left
          unfold handleUploadM uploadAudioM multerStore
          dsimp only
          rw [if_neg hreq, hv]
    | .disk fn p o mt sz =>
      by_cases hreq : falsy b.title = true ∨ falsy b.mood = true ∨ falsy b.environment = true
      · left
        unfold handleUploadM uploadAudioM multerStore
        dsimp only
        rw [if_pos hreq]
      · cases hv : validateAudio (mkAudioDoc (.disk fn p o mt sz) b userId newId now) with
        | nil =>
          right
          refine ⟨.disk fn p o mt sz, rfl, ?_, ?_⟩
          · unfold handleUploadM uploadAudioM multerStore
            dsimp only
            rw [if_neg hreq, hv]
          · unfold handleUploadM uploadAudioM multerStore
            dsimp only
            rw [if_neg hreq, hv]
            simp [storedRefOk, mkAudioDoc]
        | cons e es =>
          left
          unfold handleUploadM uploadAudioM multerStore
          dsimp only
          rw [if_neg hreq, hv]

set_option maxHeartbeats 1000000 in
/-- Claim C2: records only ever reference keys handed back by a successful
store. In the Mongoose pipeline, every record in the post-state collection was
already there or carries exactly the reference written by this request's
multer store, with the object present in the post-state; in the Supabase
pipeline, an S3 store failure leaves the table unchanged, and every row was
already there or has `file_path` equal to the key generated by
`StorageService.uploadFile`, with the object present in the backend. -/
theorem claim2_keys_from_store
    (st : MState) (file : Option MulterFile) (b : MBody) (userId newId : String) (now : Nat)
    (useS3 uploadOk : Bool) (insertErr : Option String) (deleteOk : Bool)
    (snow : Nat) (sSt : SState) (sFile : Option SFile) (t m e : Option String)
    (sUid : String) :
    (∀ a ∈ (handleUploadM st file b userId newId now).1.db,
        a ∈ st.db ∨ ∃ f, file = some f
          ∧ storedRefOk (handleUploadM st file b userId newId now).1 f a = true)
    ∧ (useS3 = true → uploadOk = false →
        (uploadAudioS useS3 uploadOk insertErr deleteOk snow sSt sFile t m e sUid).1.rows
          = sSt.rows)
    ∧ (∀ r ∈ (uploadAudioS useS3 uploadOk insertErr deleteOk snow sSt sFile t m e sUid).1.rows,
        r ∈ sSt.rows ∨ ∃ f, sFile = some f
          ∧ r.file_path = svcKey snow f.originalname
          ∧ hasKey (uploadAudioS useS3 uploadOk insertErr deleteOk snow sSt
              sFile t m e sUid).1.objects r.file_path = true) := by
  refine ⟨?_, ?_, ?_⟩
  · intro a ha
    rcases handleUploadM_db st file b userId newId now with h | ⟨f, hf, hdb, href⟩
    · rw [h] at ha
      exact Or.inl ha
    · rw [hdb] at ha
      rcases List.mem_cons.mp ha with h | h

      · right
        exact ⟨f, hf, h ▸ href⟩
      · exact Or.inl h
  · intro hs3 hko
    subst hs3
    subst hko
    match sFile with
    | none => rfl
    | some f => simp [uploadAudioS, svcUploadFile]
  · intro r hr
    cases hsf : sFile with
    | none =>
      rw [hsf] at hr
      left
      simpa [uploadAudioS] using hr
    | some f =>
      rw [hsf] at hr
      cases hupl : svcUploadFile useS3 uploadOk snow sSt f with
      | error msg =>
        left
        simpa [uploadAudioS, hupl] using hr
      | ok res =>
        have hres := svcUploadFile_ok hupl
        rw [hres] at hupl
        cases hins : insertErr with
        | none =>
          rw [hins] at hr
          simp only [uploadAudioS, hupl] at hr
          rcases List.mem_append.mp hr with h | h
          · exact Or.inl h
          · right
            have hrow := List.mem_singleton.mp h
            refine ⟨f, rfl, ?_, ?_⟩
            · rw [hrow]
            · rw [hrow]
              simp only [uploadAudioS, hupl]
              exact hasKey_putObject _ _ _
        | some msg2 =>
          left
          rw [hins] at hr
          simp only [uploadAudioS, hupl] at hr
          cases hd : svcDeleteFile useS3 deleteOk
              { sSt with
                objects := putObject sSt.objects (svcKey snow f.originalname) f.content
                tmp := sSt.tmp.filter (fun kv => kv.1 ≠ f.path) }
              (svcKey snow f.originalname) with
          | ok st2 =>
            rw [hd] at hr
            have := svcDeleteFile_ok_rows hd
            simp only at hr
            rw [this] at hr
            exact hr
          | error msg3 =>
            rw [hd] at hr
            exact hr

theorem svcDeleteFile_ok_objects {useS3 deleteOk : Bool} {st : SState} {key : String}
    {st2 : SState} (h : svcDeleteFile useS3 deleteOk st key = .ok st2)
    (hk : hasKey st.objects key = true) :
    st2.objects = st.objects.filter (fun kv => kv.1 ≠ key) := by
  unfold svcDeleteFile at h
  split_ifs at h <;> first
    | (injection h with h; subst h; rfl)
    | exact Except.noConfusion h
    | simp_all

theorem svcDeleteFile_error_shape {useS3 deleteOk : Bool} {st : SState} {key msg : String}
    (h : svcDeleteFile useS3 deleteOk st key = .error msg) :
    useS3 = true ∧ deleteOk = false := by
  unfold svcDeleteFile at h
  split_ifs at h <;> first
    | exact Except.noConfusion h
    | simp_all

/-- Witness for C2: the record created by a concrete successful disk upload
references exactly the path multer wrote, and the object is on disk. -/
theorem claim2_keys_from_store_witness :
    vDoc ∈ ({} : MState).db
    ∨ ∃ f, (some vFile : Option MulterFile) = some f
        ∧ storedRefOk (handleUploadM {} (some vFile) vb "A" "i1" 3).1 f vDoc = true :=
  (claim2_keys_from_store {} (some vFile) vb "A" "i1" 3 false true none true 9 {}
    none none none none "U").1 vDoc (by decide)

/-- Counterexample to C1 as stated: a valid file uploaded through the Mongoose
S3 pipeline with mood `furious` is rejected by metadata validation, yet the
catch block removes nothing from the bucket (it only unlinks local files), so
the stored object persists as an orphan and no remove was invoked on the key
`store` returned. -/
theorem claim1_compensation_counterexample :
    (handleUploadM {} (some c1file) c1body "A" "id1" 5).2
      = .validationFailed [VErr.moodInvalid "furious"]
    ∧ (handleUploadM {} (some c1file) c1body "A" "id1" 5).1.s3Objects = ["audio-9-7.mp3"]
    ∧ (handleUploadM {} (some c1file) c1body "A" "id1" 5).1.db = [] := by
  refine ⟨by decide, by decide, by decide⟩

/-- Claim C1, amended: compensation works as claimed in the Supabase
orchestrator — after a successful store and a failed insert the caller gets
the uniform 500 body whatever the compensation does, no row is persisted, and
whenever the remove can succeed (local backend, or S3 with the service
reachable) the stored object is gone — and in the Mongoose orchestrator for
disk uploads, where the catch block unlinks the stored file and returns the
validator messages; the Mongoose S3 path (see the counterexample) performs no
remove. -/
theorem claim1_compensation_amended :
    (∀ (useS3 deleteOk : Bool) (now : Nat) (st : SState) (f : SFile)
        (t m e : Option String) (uid err : String),
      (uploadAudioS useS3 true (some err) deleteOk now st (some f) t m e uid).2 = sUploadErr
      ∧ (uploadAudioS useS3 true (some err) deleteOk now st (some f) t m e uid).1.rows
          = st.rows
      ∧ ((useS3 = false ∨ deleteOk = true) →
          hasKey (uploadAudioS useS3 true (some err) deleteOk now st (some f)
              t m e uid).1.objects (svcKey now f.originalname) = false))
    ∧ (∀ (st : MState) (fn p o mt : String) (sz : Nat) (b : MBody) (uid nid : String)
        (now : Nat),
        ¬(falsy b.title = true ∨ falsy b.mood = true ∨ falsy b.environment = true) →
        validateAudio (mkAudioDoc (.disk fn p o mt sz) b uid nid now) ≠ [] →
        p ∉ st.localFiles →
        (handleUploadM st (some (.disk fn p o mt sz)) b uid nid now).2
          = .validationFailed (validateAudio (mkAudioDoc (.disk fn p o mt sz) b uid nid now))
        ∧ p ∉ (handleUploadM st (some (.disk fn p o mt sz)) b uid nid now).1.localFiles
        ∧ (handleUploadM st (some (.disk fn p o mt sz)) b uid nid now).1.db = st.db) := by
  constructor
  · intro useS3 deleteOk now st f t m e uid err
    obtain ⟨loc, hupl⟩ : ∃ loc, svcUploadFile useS3 true now st f
        = .ok ({ st with
                  objects := putObject st.objects (svcKey now f.originalname) f.content
                  tmp := st.tmp.filter (fun kv => kv.1 ≠ f.path) },
               svcKey now f.originalname, loc) := by
      cases useS3 with
      | false => exact ⟨_, rfl⟩
      | true => exact ⟨_, rfl⟩
    cases hdel : svcDeleteFile useS3 deleteOk
        { st with
          objects := putObject st.objects (svcKey now f.originalname) f.content
          tmp := st.tmp.filter (fun kv => kv.1 ≠ f.path) } (svcKey now f.originalname) with
    | ok st2 =>
      refine ⟨?_, ?_, ?_⟩
      · simp only [uploadAudioS, hupl, hdel]
      · simp only [uploadAudioS, hupl, hdel]
        rw [svcDeleteFile_ok_rows hdel]
      · intro _
        simp only [uploadAudioS, hupl, hdel]
        rw [svcDeleteFile_ok_objects hdel (hasKey_putObject _ _ _)]
        exact hasKey_filter _ _
    | error msg =>
      obtain ⟨hu, hd⟩ := svcDeleteFile_error_shape hdel
      refine ⟨?_, ?_, ?_⟩
      · simp only [uploadAudioS, hupl, hdel]
      · simp only [uploadAudioS, hupl, hdel]
      · intro hcase
        rcases hcase with h | h
        · rw [hu] at h
          exact absurd h (by decide)
        · rw [h] at hd
          exact absurd hd (by decide)
  · intro st fn p o mt sz b uid nid now h1 h2 h3
    cases hv : validateAudio (mkAudioDoc (.disk fn p o mt sz) b uid nid now) with
    | nil => exact absurd hv h2
    | cons e es =>
      refine ⟨?_, ?_, ?_⟩
      · unfold handleUploadM uploadAudioM multerStore
        dsimp only
        rw [if_neg h1, hv]
      · unfold handleUploadM uploadAudioM multerStore
        dsimp only
        rw [if_neg h1, hv]
        rw [if_pos (List.mem_cons_self p st.localFiles), List.erase_cons_head]
        exact h3
      · unfold handleUploadM uploadAudioM multerStore
        dsimp only
        rw [if_neg h1, hv]

/-- Witness for the amended C1: a concrete failed insert after a successful
local store yields the uniform 500 body with no orphan, and a concrete
mood-enum failure on the Mongoose disk path returns the validator message and
unlinks the stored file. -/
theorem claim1_compensation_amended_witness :
    (uploadAudioS false true (some "boom") true 60 c4stS (some c4f)
        (some "T") (some "calm") (some "home") "U").2 = sUploadErr
    ∧ hasKey (uploadAudioS false true (some "boom") true 60 c4stS (some c4f)
        (some "T") (some "calm") (some "home") "U").1.objects (svcKey 60 "c.mp3") = false
    ∧ (handleUploadM {} (some (.disk "a-1.mp3" "/up/a-1.mp3" "song.mp3" "audio/mpeg" 2048))
        c1body "A" "id1" 5).2
        = .validationFailed (validateAudio (mkAudioDoc
            (.disk "a-1.mp3" "/up/a-1.mp3" "song.mp3" "audio/mpeg" 2048) c1body "A" "id1" 5))
    ∧ "/up/a-1.mp3" ∉ (handleUploadM {}
        (some (.disk "a-1.mp3" "/up/a-1.mp3" "song.mp3" "audio/mpeg" 2048))
        c1body "A" "id1" 5).1.localFiles := by
  have hA := claim1_compensation_amended.1 false true 60 c4stS c4f
    (some "T") (some "calm") (some "home") "U" "boom"
  have hB := claim1_compensation_amended.2 {} "a-1.mp3" "/up/a-1.mp3" "song.mp3"
    "audio/mpeg" 2048 c1body "A" "id1" 5 (by decide) (by decide) (by decide)
  exact ⟨hA.1, hA.2.2 (Or.inl rfl), hB.1, hB.2.1⟩

/-- Counterexample to C4 as stated: the Supabase upload controller does not
reject a request whose mood and environment are absent — it defaults both to
`unspecified` and creates the row. -/
theorem claim4_reject_counterexample :
    (uploadAudioS false true none true 50 c4stS (some c4f) none none none "U").2
      = .created
          { user_id := "U", title := "c.mp3", mood := "unspecified",
            environment := "unspecified", file_path := "50.mp3",
            file_url := "/uploads/50.mp3", file_size := 3,
            file_type := "audio/mpeg", original_name := "c.mp3" }
    ∧ (uploadAudioS false true none true 50 c4stS (some c4f) none none none "U").1.rows
        ≠ [] := by
  refine ⟨by decide, by decide⟩

/-- Claim C4, amended: the Mongoose orchestrator rejects a fileless request,
and a request with a missing (or empty) mood or environment, with the exact
400 bodies and creates no record; the Supabase orchestrator rejects only the
fileless case — missing mood and environment are defaulted to `unspecified`
(see the counterexample). -/
theorem claim4_reject_amended :
    (∀ (st : MState) (b : MBody) (userId newId : String) (now : Nat),
      (handleUploadM st none b userId newId now).2 = .badRequest "No audio file uploaded."
      ∧ (handleUploadM st none b userId newId now).1.db = st.db)
    ∧ (∀ (st : MState) (f : MulterFile) (b : MBody) (userId newId : String) (now : Nat),
        falsy b.mood = true ∨ falsy b.environment = true →
        (handleUploadM st (some f) b userId newId now).2
          = .badRequest "Title, mood, and environment are required."
        ∧ (handleUploadM st (some f) b userId newId now).1.db = st.db)
    ∧ (∀ (useS3 uploadOk : Bool) (insertErr : Option String) (deleteOk : Bool)
        (snow : Nat) (sSt : SState) (t m e : Option String) (uid : String),
        (uploadAudioS useS3 uploadOk insertErr deleteOk snow sSt none t m e uid).2
          = .badRequest "No audio file uploaded"
        ∧ (uploadAudioS useS3 uploadOk insertErr deleteOk snow sSt none t m e uid).1.rows
          = sSt.rows) := by
  refine ⟨?_, ?_, ?_⟩
  · intro st b userId newId now
    exact ⟨rfl, rfl⟩
  · intro st f b userId newId now h
    have hreq : falsy b.title = true ∨ falsy b.mood = true ∨ falsy b.environment = true := by
      rcases h with h | h
      · exact Or.inr (Or.inl h)
      · exact Or.inr (Or.inr h)
    cases f with
    | s3 key loc o mt sz =>
      constructor
      · unfold handleUploadM uploadAudioM multerStore
        dsimp only
        rw [if_pos hreq]
      · unfold handleUploadM uploadAudioM multerStore
        dsimp only
        rw [if_pos hreq]
    | disk fn p o mt sz =>
      constructor
      · unfold handleUploadM uploadAudioM multerStore
        dsimp only
        rw [if_pos hreq]
      · unfold handleUploadM uploadAudioM multerStore
        dsimp only
        rw [if_pos hreq]
  · intro useS3 uploadOk insertErr deleteOk snow sSt t m e uid
    exact ⟨rfl, rfl⟩

/-- Witness for the amended C4: the three rejection shapes at concrete
requests. -/
theorem claim4_reject_amended_witness :
    (handleUploadM {} none vb "A" "i1" 3).2 = .badRequest "No audio file uploaded."
    ∧ (handleUploadM {} (some vFile) mbNoMood "A" "i1" 3).2
        = .badRequest "Title, mood, and environment are required."
    ∧ (handleUploadM {} (some vFile) mbNoMood "A" "i1" 3).1.db = ({} : MState).db
    ∧ (uploadAudioS false true none true 9 {} none none none none "U").2
        = .badRequest "No audio file uploaded" :=
  ⟨(claim4_reject_amended.1 {} vb "A" "i1" 3).1,
   (claim4_reject_amended.2.1 {} vFile mbNoMood "A" "i1" 3 (Or.inl rfl)).1,
   (claim4_reject_amended.2.1 {} vFile mbNoMood "A" "i1" 3 (Or.inl rfl)).2,
   (claim4_reject_amended.2.2 false true none true 9 {} none none none "U").1⟩

/-- Counterexample to C6 as stated: `StorageService.uploadFile` keys carry no
random component, so two store calls in the same millisecond with the same
extension generate the same key, and the second upload overwrites the first —
after both uploads the backend holds a single object, with the second file's
content. -/
theorem claim6_unique_keys_counterexample :
    svcKey 99 "one.mp3" = svcKey 99 "two.mp3"
    ∧ c6afterTwo.objects = [("99.mp3", "payload-two")] := by
  refine ⟨by decide, by decide⟩

/-- Claim C6, amended: the multer key generators of `src/routes/audio.js`
append a random suffix, so same-millisecond store calls with different random
draws (and equal extensions) always get distinct keys; the
`StorageService.uploadFile` key of `src/unnamed/part_003` is the millisecond
timestamp plus the extension alone, so for equal extensions two of its keys
collide exactly when the calls share the millisecond — same-millisecond calls
overwrite (see the counterexample), distinct-millisecond calls never do. -/
theorem claim6_unique_keys_amended :
    (∀ (t r1 r2 : Nat) (o1 o2 : String), extname o1 = extname o2 → r1 ≠ r2 →
      multerS3Key t r1 o1 ≠ multerS3Key t r2 o2)
    ∧ (∀ (fn : String) (t r1 r2 : Nat) (o1 o2 : String), extname o1 = extname o2 →
        r1 ≠ r2 → multerDiskName fn t r1 o1 ≠ multerDiskName fn t r2 o2)
    ∧ (∀ (t1 t2 : Nat) (o1 o2 : String), extname o1 = extname o2 →
        (svcKey t1 o1 = svcKey t2 o2 ↔ t1 = t2)) := by
  refine ⟨?_, ?_, ?_⟩
  · intro t r1 r2 o1 o2 hext hne heq
    exact hne (multerS3Key_inj_rand hext heq)
  · intro fn t r1 r2 o1 o2 hext hne heq
    exact hne (multerDiskName_inj_rand hext heq)
  · intro t1 t2 o1 o2 hext
    constructor
    · intro heq
      exact svcKey_inj_now hext heq
    · intro heq
      subst heq
      unfold svcKey
      rw [hext]

/-- Witness for the amended C6: concrete same-millisecond multer keys with
different random draws differ, and concrete `StorageService` keys collide
exactly on equal timestamps. -/
theorem claim6_unique_keys_amended_witness :
    multerS3Key 99 1 "one.mp3" ≠ multerS3Key 99 2 "two.mp3"
    ∧ (svcKey 99 "one.mp3" = svcKey 99 "two.mp3" ↔ (99 : Nat) = 99)
    ∧ (svcKey 99 "one.mp3" = svcKey 98 "two.mp3" ↔ (99 : Nat) = 98) :=
  ⟨claim6_unique_keys_amended.1 99 1 2 "one.mp3" "two.mp3" (by decide) (by decide),
   claim6_unique_keys_amended.2.2 99 99 "one.mp3" "two.mp3" (by decide),
   claim6_unique_keys_amended.2.2 99 98 "one.mp3" "two.mp3" (by decide)⟩

/-- Claim C7: for every `getUserAudio` listing, `totalPages` is the ceiling of
`totalCount / limit` (computed as the integer formula `(tc + limit - 1) /
limit`), the page holds `min limit (tc - skip)` records, `hasNext` holds
exactly when `skip` plus the returned count is below `totalCount`, and
`hasPrev` exactly when the page number exceeds 1. -/
theorem claim7_pagination (db : List Audio) (userId : String) (page limit : Nat)
    (fl : MFilters) (hl : 0 < limit) :
    (getUserAudio db userId page limit fl).2.totalPages
      = ((userAudioQuery db userId fl).length + limit - 1) / limit
    ∧ (getUserAudio db userId page limit fl).1.length
      = min limit ((userAudioQuery db userId fl).length - (page - 1) * limit)
    ∧ ((getUserAudio db userId page limit fl).2.hasNext = true ↔
        (page - 1) * limit + (getUserAudio db userId page limit fl).1.length
          < (userAudioQuery db userId fl).length)
    ∧ ((getUserAudio db userId page limit fl).2.hasPrev = true ↔ 1 < page)
    ∧ (getUserAudio db userId page limit fl).2.totalCount
      = (userAudioQuery db userId fl).length
    ∧ (getUserAudio db userId page limit fl).2.currentPage = page := by
  have hlen : (getUserAudio db userId page limit fl).1.length
      = min limit ((userAudioQuery db userId fl).length - (page - 1) * limit) := by
    simp [getUserAudio, List.length_take, List.length_drop, length_sortByCreatedAtDesc,
      Nat.min_comm]
  refine ⟨?_, hlen, ?_, ?_, ?_, ?_⟩
  · simp only [getUserAudio]
    exact mathCeilDiv_eq _ _ hl
  · simp [getUserAudio, List.length_take, List.length_drop, length_sortByCreatedAtDesc,
      Nat.min_comm]
  · simp [getUserAudio]
  · rfl
  · rfl

/-- Witness for C7: 25 matching records with `limit = 10`, `page = 2` give 10
records, `totalPages = 3`, `hasNext = true`, `hasPrev = true`. -/
theorem claim7_pagination_witness :
    (getUserAudio exDb25 "u" 2 10 {}).1.length = 10
    ∧ (getUserAudio exDb25 "u" 2 10 {}).2.totalPages = 3
    ∧ (getUserAudio exDb25 "u" 2 10 {}).2.hasNext = true
    ∧ (getUserAudio exDb25 "u" 2 10 {}).2.hasPrev = true
    ∧ (getUserAudio exDb25 "u" 2 10 {}).2.totalCount = 25 := by
  have h := claim7_pagination exDb25 "u" 2 10 {} (by decide)
  have htc : (userAudioQuery exDb25 "u" {}).length = 25 := by decide
  refine ⟨?_, ?_, ?_, ?_, ?_⟩
  · rw [h.2.1, htc]
    decide
  · rw [h.1, htc]
  · rw [h.2.2.1, h.2.1, htc]
    decide
  · rw [h.2.2.2.1]
    decide
  · rw [h.2.2.2.2.1, htc]

end VibeLoop
